import Mathlib

/-!
Shallow embedding of `pkg/aria2/Monitor.go` (Cloudreve offline-download
monitor).  Pure data is translated directly; calls to external
collaborators (the aria2 engine, the persistence layer, the validation
hooks, the transfer-job pool, the OS file system) are modelled by an
environment of oracle answers (`Env`) plus an explicit effect trace
(`Effect`), so that each reconciliation pass `Monitor.Update` becomes a
pure function from the task record and the environment to the updated
record, the list of emitted effects, and the stop/continue decision.
-/

/-- Lifecycle states of a download task.  The package-level status
constants (`Ready`, `Downloading`, … , `Error`, `Complete`) live in
`pkg/aria2/aria2.go`, outside the embedded fragment; only the shape of
the enumeration matters here. -/
inductive DownloadStatus where
  | waiting
  | active
  | paused
  | complete
  | error
  | removed
  | unknown
deriving DecidableEq, Repr

/-- Modelled from the spec: `getStatus` (pkg/aria2, not under src/) maps
the engine-reported status string 1:1 onto the enumerated lifecycle
state (§4.1 of the spec); unrecognised strings map to `unknown`. -/
def getStatus (s : String) : DownloadStatus :=
  if s = "active" then .active
  else if s = "waiting" then .waiting
  else if s = "paused" then .paused
  else if s = "complete" then .complete
  else if s = "error" then .error
  else if s = "removed" then .removed
  else .unknown

/-- Modelled from the spec: the sentinel returned by `ValidateFile` when
the task owner cannot be resolved (`ErrUserNotFound`, declared elsewhere
in pkg/aria2). -/
def ErrUserNotFound : String := "ErrUserNotFound"

/-- The persisted download-task record (`model.Download`), restricted to
the fields `Monitor.go` reads or writes. -/
structure Download where
  gid : String
  status : DownloadStatus
  totalSize : Nat
  downloadedSize : Nat
  speed : Int
  path : String
  parent : String
  dst : String
  userID : Nat
  taskID : Nat
  error : String
  attrs : String
deriving DecidableEq, Repr

/-- The engine's status response (`rpc.StatusInfo`), restricted to the
fields `Monitor.go` consumes.  `files` holds the `Path` of each reported
file; the first entry is the primary file. -/
structure StatusInfo where
  gid : String
  status : String
  totalLength : String
  completedLength : String
  downloadSpeed : String
  dir : String
  files : List String
  followedBy : List String
  errorMessage : String
deriving DecidableEq, Repr

/-- One observable call to an external collaborator, in program order. -/
inductive Effect where
  | save
  | unsubscribe (gid : String)
  | removeTempFolder (dir : String)
  | cancelEngine (gid : String)
  | deferRemoveTempFolder (dir : String)
  | newTransferJob (userID : Nat) (dst : String) (src : String) (srcDir : String)
  | submitJob (userID : Nat) (dst : String) (src : String) (srcDir : String)
  | getOwner
  | newFileSystem
  | validateFileCheck (size : Nat) (name : String)
  | validateCapacityCheck (size : Nat) (name : String)
deriving DecidableEq, Repr

/-- Oracle answers for the external calls made by `ValidateFile`:
owner lookup, file-system construction, and the two validation hooks.
`Except.error` carries the error message the collaborator would return. -/
structure ValidationEnv where
  owner : Option Unit
  newFileSystem : Except String Unit
  hookValidateFile : Except String Unit
  hookValidateCapacity : Except String Unit

/-- Oracle answers for one reconciliation pass: the engine status query,
whether the `Save` inside `UpdateTaskInfo` fails (the only `Save` whose
error the code inspects), the validation oracles, whether the engine's
cancel request fails, and the result of transfer-job construction
(`.ok jobID` or `.error msg`). -/
structure Env where
  statusResult : Except String StatusInfo
  saveFails : Bool
  venv : ValidationEnv
  cancelFails : Bool
  newTransferJob : Except String Nat

/-- Go stdlib collaborators kept abstract: `filepath.Base`, `path.Join`
and `json.Marshal` as used by `Monitor.go`.  Theorems quantify over any
interpretation. -/
structure GoStd where
  filepathBase : String → String
  pathJoin : String → String → String
  jsonMarshal : StatusInfo → String

/-- Semantics of Go `strconv.ParseUint(s, 10, 64)`: digits only, no
sign, non-empty, result below 2^64; `none` models a returned error. -/
def strconvParseUint (s : String) : Option Nat :=
  if s.isEmpty then none
  else if s.data.all Char.isDigit then
    let n := s.data.foldl (fun acc c => acc * 10 + (c.toNat - 48)) 0
    if n < 2 ^ 64 then some n else none
  else none

/-- Semantics of Go `strconv.Atoi` (= `ParseInt(s, 10, 0)` with 64-bit
ints): optional sign, digits, result within the int64 range; `none`
models a returned error. -/
def strconvAtoi (s : String) : Option Int :=
  match s.data with
  | [] => none
  | c :: rest =>
    let signed : Bool × List Char :=
      if c = '-' then (true, rest)
      else if c = '+' then (false, rest) else (false, c :: rest)
    match signed with
    | (neg, digits) =>
      if digits.isEmpty then none
      else if digits.all Char.isDigit then
        let n : Nat := digits.foldl (fun acc c => acc * 10 + (c.toNat - 48)) 0
        let v : Int := if neg then -(n : Int) else (n : Int)
        if -(2 ^ 63 : Int) ≤ v ∧ v ≤ (2 ^ 63 : Int) - 1 then some v else none
      else none

/-- Result of one reconciliation pass (`Monitor.Update`). -/
structure PassResult where
  task : Download
  effects : List Effect
  stop : Bool
deriving Repr

/-- Result of `Monitor.UpdateTaskInfo`. -/
structure ReconcileResult where
  task : Download
  effects : List Effect
  err : Option String
deriving Repr

/-- The pure field-merge part of `UpdateTaskInfo` (Monitor.go:112-143):
identifier, mapped status, defensively parsed sizes and speed, temp
directory, primary path (first reported file, if any), and the
serialized snapshot of the whole response. -/
def Monitor.reconciledTask (std : GoStd) (st : StatusInfo) (task : Download) : Download :=
  { task with
    gid := st.gid
    status := getStatus st.status
    totalSize := (strconvParseUint st.totalLength).getD 0
    downloadedSize := (strconvParseUint st.completedLength).getD 0
    parent := st.dir
    speed := (strconvAtoi st.downloadSpeed).getD 0
    path := match st.files with
      | [] => task.path
      | p :: _ => p
    attrs := std.jsonMarshal st }

/-- `Monitor.Cancel` (Monitor.go:162-173): asks the engine to abort
(result only logged, hence the unused oracle argument) and schedules the
deferred recursive removal of the temp directory after the 60-second
grace period. -/
def Monitor.Cancel (_cancelFails : Bool) (task : Download) : List Effect :=
  [Effect.cancelEngine task.gid, Effect.deferRemoveTempFolder task.parent]

/-- `Monitor.ValidateFile` (Monitor.go:176-207): resolve the owner,
build a file system, then run the file-constraint hook and the
read-only capacity hook on a descriptor made of the task's current
total size and the base name of its current path.  The deferred
`fs.Recycle()` is resource release with no observable effect modelled
here. -/
def Monitor.ValidateFile (std : GoStd) (venv : ValidationEnv) (task : Download) :
    List Effect × Option String :=
  match venv.owner with
  | none => ([Effect.getOwner], some ErrUserNotFound)
  | some _ =>
    match venv.newFileSystem with
    | .error e => ([Effect.getOwner, Effect.newFileSystem], some e)
    | .ok _ =>
      let size := task.totalSize
      let name := std.filepathBase task.path
      match venv.hookValidateFile with
      | .error e =>
        ([Effect.getOwner, Effect.newFileSystem, Effect.validateFileCheck size name], some e)
      | .ok _ =>
        match venv.hookValidateCapacity with
        | .error e =>
          ([Effect.getOwner, Effect.newFileSystem, Effect.validateFileCheck size name,
            Effect.validateCapacityCheck size name], some e)
        | .ok _ =>
          ([Effect.getOwner, Effect.newFileSystem, Effect.validateFileCheck size name,
            Effect.validateCapacityCheck size name], none)

/-- `Monitor.UpdateTaskInfo` (Monitor.go:111-159): merge the engine's
report into the record, persist it, and — when the persist succeeded and
the total size or primary path changed relative to the previously
persisted values — validate; a validation failure triggers `Cancel` and
is returned, while a persist failure is swallowed (`return nil`). -/
def Monitor.UpdateTaskInfo (std : GoStd) (env : Env) (task : Download) (st : StatusInfo) :
    ReconcileResult :=
  let t1 := Monitor.reconciledTask std st task
  if env.saveFails then { task := t1, effects := [Effect.save], err := none }
  else if task.totalSize != t1.totalSize || task.path != t1.path then
    match Monitor.ValidateFile std env.venv t1 with
    | (veffs, some e) =>
      { task := t1
        effects := Effect.save :: veffs ++ Monitor.Cancel env.cancelFails t1
        err := some e }
    | (veffs, none) =>
      { task := t1, effects := Effect.save :: veffs, err := none }
  else { task := t1, effects := [Effect.save], err := none }

/-- `Monitor.setErrorStatus` (Monitor.go:267-271): record an error
message under the `Error` status and persist. -/
def Monitor.setErrorStatus (task : Download) (msg : String) : Download × List Effect :=
  ({ task with status := DownloadStatus.error, error := msg }, [Effect.save])

/-- `Monitor.Complete` (Monitor.go:244-265): construct the transfer job
(owner, `dst` joined with the base name of the current path, the current
path, the parent directory); on failure record an error status, on
success submit the job, link its identifier into the record and persist.
Both branches stop monitoring. -/
def Monitor.Complete (std : GoStd) (env : Env) (task : Download) : PassResult :=
  let dstPath := std.pathJoin task.dst (std.filepathBase task.path)
  let construct := Effect.newTransferJob task.userID dstPath task.path task.parent
  match env.newTransferJob with
  | .error e =>
    match Monitor.setErrorStatus task e with
    | (t, effs) => { task := t, effects := construct :: effs, stop := true }
  | .ok jobID =>
    { task := { task with taskID := jobID }
      effects := [construct,
                  Effect.submitJob task.userID dstPath task.path task.parent,
                  Effect.save]
      stop := true }

/-- `Monitor.Error` (Monitor.go:210-217): record the engine's error
message, recursively remove the temp directory, stop monitoring. -/
def Monitor.Error (task : Download) (st : StatusInfo) : PassResult :=
  match Monitor.setErrorStatus task st.errorMessage with
  | (t, effs) =>
    { task := t, effects := effs ++ [Effect.removeTempFolder t.parent], stop := true }

/-- `Monitor.Update` (Monitor.go:69-108): one reconciliation pass.
Query failure records the error, removes the temp directory and stops.
A non-empty redirect list replaces the identifier, persists and
continues.  Otherwise the record is reconciled, a reconciliation error
is recorded and stops, and terminal dispatch follows the status string. -/
def Monitor.Update (std : GoStd) (env : Env) (task : Download) : PassResult :=
  match env.statusResult with
  | .error e =>
    match Monitor.setErrorStatus task e with
    | (t, effs) =>
      { task := t, effects := effs ++ [Effect.removeTempFolder t.parent], stop := true }
  | .ok st =>
    match st.followedBy with
    | g :: _ => { task := { task with gid := g }, effects := [Effect.save], stop := false }
    | [] =>
      let r := Monitor.UpdateTaskInfo std env task st
      match r.err with
      | some e =>
        match Monitor.setErrorStatus r.task e with
        | (t, effs) => { task := t, effects := r.effects ++ effs, stop := true }
      | none =>
        if st.status = "complete" then
          let c := Monitor.Complete std env r.task
          { c with effects := r.effects ++ c.effects }
        else if st.status = "error" then
          let c := Monitor.Error r.task st
          { c with effects := r.effects ++ c.effects }
        else if st.status = "active" || st.status = "waiting" || st.status = "paused" then
          { task := r.task, effects := r.effects, stop := false }
        else if st.status = "removed" then
          { task := r.task, effects := r.effects, stop := true }
        else
          { task := r.task, effects := r.effects, stop := true }

/-- The key under which `NewMonitor` (Monitor.go:36-44) subscribes the
monitor's inbox at the event dispatcher: the task's identifier at
construction time. -/
def subscribeKey (task : Download) : String := task.gid

/-- The monitor loop body (Monitor.go:53-65) over a finite trace of
per-pass environments: run passes until one returns the terminal
decision; `none` if the trace is exhausted first. -/
def Monitor.runLoop (std : GoStd) : List Env → Download → Option (Download × List Effect)
  | [], _ => none
  | env :: rest, task =>
    let r := Monitor.Update std env task
    if r.stop then some (r.task, r.effects)
    else
      match Monitor.runLoop std rest r.task with
      | none => none
      | some (t, effs) => some (t, r.effects ++ effs)

/-- `Monitor.Loop` (Monitor.go:47-66): the deferred
`EventNotifier.Unsubscribe(monitor.Task.GID)` evaluates its argument
when the `defer` statement runs, i.e. at loop entry, so the key is
captured before any pass can rewrite the identifier. -/
def Monitor.Loop (std : GoStd) (envs : List Env) (task : Download) :
    Option (Download × List Effect) :=
  let unsubKey := task.gid
  match Monitor.runLoop std envs task with
  | none => none
  | some (t, effs) => some (t, effs ++ [Effect.unsubscribe unsubKey])

/-- A flat model of the temp-storage area: the set of file paths and
directory paths that exist.  `inDir d x` abstracts "x is a direct entry
of directory d". -/
structure FS where
  files : List String
  dirs : List String
deriving DecidableEq, Repr

/-- Go `os.Remove` on a file path: at most that one path disappears
(failure when the path is absent is logged and ignored). -/
def fsRemoveFile (fs : FS) (p : String) : FS :=
  { fs with files := fs.files.filter (fun f => f != p) }

/-- Go `os.Remove` on a directory path. -/
def fsRemoveDir (fs : FS) (d : String) : FS :=
  { fs with dirs := fs.dirs.filter (fun x => x != d) }

/-- Modelled from the spec: `util.IsEmpty` (pkg/util, not under src/)
reports whether a directory currently has no entries — no file and no
other directory directly inside it. -/
def isEmptyDir (inDir : String → String → Bool) (fs : FS) (d : String) : Bool :=
  fs.files.all (fun f => !inDir d f) &&
    fs.dirs.all (fun x => x == d || !inDir d x)

/-- `Monitor.RemoveTempFile` (Monitor.go:220-232): remove the primary
tracked file, then remove the parent directory only when it is empty
afterwards. -/
def Monitor.RemoveTempFile (inDir : String → String → Bool) (task : Download) (fs : FS) : FS :=
  let fs1 := fsRemoveFile fs task.path
  if isEmptyDir inDir fs1 task.parent then fsRemoveDir fs1 task.parent else fs1

/-- Go `os.RemoveAll`: the directory and everything anywhere below it
disappears.  `under d x` abstracts "x lies strictly below directory d". -/
def fsRemoveAll (under : String → String → Bool) (fs : FS) (d : String) : FS :=
  { files := fs.files.filter (fun f => !under d f)
    dirs := fs.dirs.filter (fun x => !(x == d) && !under d x) }

/-- `Monitor.RemoveTempFolder` (Monitor.go:235-241): recursive removal
of the whole temp directory, failures only logged. -/
def Monitor.RemoveTempFolder (under : String → String → Bool) (task : Download) (fs : FS) : FS :=
  fsRemoveAll under fs task.parent

/-- Classifier: is this effect a dispatcher unsubscription? -/
def Effect.isUnsubscribe : Effect → Bool
  | .unsubscribe _ => true
  | _ => false

/-- Classifier: is this effect an immediate recursive temp-directory
removal (`RemoveTempFolder`)? -/
def Effect.isRemoveTempFolder : Effect → Bool
  | .removeTempFolder _ => true
  | _ => false

/-- Classifier: is this effect any call into the validation layer
(owner lookup, file-system construction, or either validation hook)? -/
def Effect.isValidation : Effect → Bool
  | .getOwner => true
  | .newFileSystem => true
  | .validateFileCheck _ _ => true
  | .validateCapacityCheck _ _ => true
  | _ => false

/-- The `task` component returned by `UpdateTaskInfo` is always the
reconciled record, in every branch. -/
lemma updateTaskInfo_task (std : GoStd) (env : Env) (task : Download) (st : StatusInfo) :
    (Monitor.UpdateTaskInfo std env task st).task = Monitor.reconciledTask std st task := by
  unfold Monitor.UpdateTaskInfo
  dsimp only
  split
  · rfl
  · split
    · split <;> rfl
    · rfl

/-- C4: for every engine status response whose followed-by list is
non-empty, the pass replaces the task's identifier with the first entry
of that list, persists the record (the sole effect is the save), and
returns the non-terminal decision. -/
theorem C4_redirect_replaces_identifier_and_continues
    (std : GoStd) (env : Env) (task : Download) (st : StatusInfo) (g : String) (gs : List String)
    (hq : env.statusResult = .ok st) (hf : st.followedBy = g :: gs) :
    Monitor.Update std env task =
      { task := { task with gid := g }, effects := [Effect.save], stop := false } := by
  simp [Monitor.Update, hq, hf]

/-- Shared concrete interpretation of the Go stdlib collaborators used
by the witnesses. -/
def testStd : GoStd :=
  { filepathBase := fun s => s
    pathJoin := fun a b => a ++ "/" ++ b
    jsonMarshal := fun _ => "snap" }

/-- Validation oracles that all succeed. -/
def venvOK : ValidationEnv :=
  { owner := some ()
    newFileSystem := .ok ()
    hookValidateFile := .ok ()
    hookValidateCapacity := .ok () }

/-- A concrete task record used by the witnesses. -/
def task0 : Download :=
  { gid := "g1", status := .active, totalSize := 0, downloadedSize := 0, speed := 0,
    path := "/tmp/d/f", parent := "/tmp/d", dst := "/dst", userID := 7, taskID := 0,
    error := "", attrs := "" }

/-- A concrete well-formed engine response used by the witnesses. -/
def st0 : StatusInfo :=
  { gid := "g1", status := "active", totalLength := "1000", completedLength := "500",
    downloadSpeed := "5", dir := "/tmp/d", files := ["/tmp/d/f"], followedBy := [],
    errorMessage := "" }

/-- Baseline environment: the query answers `st0`, saves succeed,
validation passes, job construction yields job 42. -/
def env0 : Env :=
  { statusResult := .ok st0, saveFails := false, venv := venvOK, cancelFails := false,
    newTransferJob := .ok 42 }

/-- Response that redirects to identifier `g2`. -/
def stRedirect : StatusInfo := { st0 with followedBy := ["g2"] }

/-- Environment whose query reports the redirect. -/
def envRedirect : Env := { env0 with statusResult := .ok stRedirect }

theorem C4_redirect_witness :
    envRedirect.statusResult = .ok stRedirect ∧
    stRedirect.followedBy = "g2" :: [] ∧
    Monitor.Update testStd envRedirect task0 =
      { task := { task0 with gid := "g2" }, effects := [Effect.save], stop := false } :=
  ⟨rfl, rfl,
    C4_redirect_replaces_identifier_and_continues testStd envRedirect task0 stRedirect
      "g2" [] rfl rfl⟩

/-- C10: on a redirect pass only the identifier field of the record is
modified — status, sizes, speed, path, parent, serialized snapshot,
error message and transfer-job linkage keep their previous values, the
only effect is the persist, and the pass continues. -/
theorem C10_redirect_modifies_only_identifier
    (std : GoStd) (env : Env) (task : Download) (st : StatusInfo) (g : String) (gs : List String)
    (hq : env.statusResult = .ok st) (hf : st.followedBy = g :: gs) :
    (Monitor.Update std env task).task.gid = g ∧
    (Monitor.Update std env task).task.status = task.status ∧
    (Monitor.Update std env task).task.totalSize = task.totalSize ∧
    (Monitor.Update std env task).task.downloadedSize = task.downloadedSize ∧
    (Monitor.Update std env task).task.speed = task.speed ∧
    (Monitor.Update std env task).task.path = task.path ∧
    (Monitor.Update std env task).task.parent = task.parent ∧
    (Monitor.Update std env task).task.attrs = task.attrs ∧
    (Monitor.Update std env task).task.error = task.error ∧
    (Monitor.Update std env task).task.taskID = task.taskID ∧
    (Monitor.Update std env task).effects = [Effect.save] ∧
    (Monitor.Update std env task).stop = false := by
  simp [Monitor.Update, hq, hf]

theorem C10_redirect_frame_witness :
    envRedirect.statusResult = .ok stRedirect ∧
    (Monitor.Update testStd envRedirect task0).task.status = task0.status ∧
    (Monitor.Update testStd envRedirect task0).task.path = task0.path ∧
    (Monitor.Update testStd envRedirect task0).stop = false :=
  ⟨rfl,
    (C10_redirect_modifies_only_identifier testStd envRedirect task0 stRedirect
      "g2" [] rfl rfl).2.1,
    (C10_redirect_modifies_only_identifier testStd envRedirect task0 stRedirect
      "g2" [] rfl rfl).2.2.2.2.2.1,
    (C10_redirect_modifies_only_identifier testStd envRedirect task0 stRedirect
      "g2" [] rfl rfl).2.2.2.2.2.2.2.2.2.2.2⟩

/-- Every file surviving `fsRemoveAll` lies outside the removed
directory. -/
lemma fsRemoveAll_files (under : String → String → Bool) (fs : FS) (d : String) :
    ((fsRemoveAll under fs d).files).all (fun f => !under d f) = true := by
  simp only [fsRemoveAll, List.all_eq_true]
  intro x hx
  exact (List.mem_filter.mp hx).2

/-- Every directory surviving `fsRemoveAll` is neither the removed
directory nor anything below it. -/
lemma fsRemoveAll_dirs (under : String → String → Bool) (fs : FS) (d : String) :
    ((fsRemoveAll under fs d).dirs).all (fun x => !(x == d) && !under d x) = true := by
  simp only [fsRemoveAll, List.all_eq_true]
  intro x hx
  exact (List.mem_filter.mp hx).2

/-- C6: when the engine status query fails, the pass records the Error
status carrying the query's failure reason, persists it, performs the
full recursive temp-directory removal, and returns the terminal
decision; the removal leaves nothing inside (or equal to) the temp
directory. -/
theorem C6_query_failure_records_error_and_removes_folder
    (std : GoStd) (env : Env) (task : Download) (e : String)
    (under : String → String → Bool) (fs : FS)
    (hq : env.statusResult = .error e) :
    Monitor.Update std env task =
      { task := { task with status := DownloadStatus.error, error := e }
        effects := [Effect.save, Effect.removeTempFolder task.parent]
        stop := true } ∧
    ((Monitor.RemoveTempFolder under task fs).files).all
      (fun f => !under task.parent f) = true ∧
    ((Monitor.RemoveTempFolder under task fs).dirs).all
      (fun x => !(x == task.parent) && !under task.parent x) = true := by
  refine ⟨by simp [Monitor.Update, hq, Monitor.setErrorStatus], ?_, ?_⟩
  · exact fsRemoveAll_files under fs task.parent
  · exact fsRemoveAll_dirs under fs task.parent

/-- Environment whose status query fails with reason `boom`. -/
def envBoom : Env := { env0 with statusResult := .error "boom" }

/-- A concrete temp area: the tracked file, an unrelated file, the temp
directory and a subdirectory of it. -/
def fs0 : FS :=
  { files := ["/tmp/d/f", "/elsewhere/keep"], dirs := ["/tmp/d", "/tmp/d/sub"] }

/-- Direct-or-transitive containment on the concrete temp area, by path
prefix. -/
def underTest (d : String) (x : String) : Bool := (d ++ "/").isPrefixOf x

theorem C6_query_failure_witness :
    envBoom.statusResult = .error "boom" ∧
    Monitor.Update testStd envBoom task0 =
      { task := { task0 with status := DownloadStatus.error, error := "boom" }
        effects := [Effect.save, Effect.removeTempFolder task0.parent]
        stop := true } ∧
    ((Monitor.RemoveTempFolder underTest task0 fs0).files).all
      (fun f => !underTest task0.parent f) = true :=
  ⟨rfl,
    (C6_query_failure_records_error_and_removes_folder testStd envBoom task0 "boom"
      underTest fs0 rfl).1,
    (C6_query_failure_records_error_and_removes_folder testStd envBoom task0 "boom"
      underTest fs0 rfl).2.1⟩

/-- `Complete` never emits a dispatcher unsubscription. -/
lemma complete_no_unsub (std : GoStd) (env : Env) (t : Download) :
    ((Monitor.Complete std env t).effects).all (fun x => !x.isUnsubscribe) = true := by
  cases hj : env.newTransferJob <;>
    simp [Monitor.Complete, hj, Monitor.setErrorStatus, Effect.isUnsubscribe]

/-- The effects emitted by `ValidateFile` never include a dispatcher
unsubscription. -/
lemma validateFile_no_unsub (std : GoStd) (venv : ValidationEnv) (t : Download) :
    ((Monitor.ValidateFile std venv t).1).all (fun x => !x.isUnsubscribe) = true := by
  cases ho : venv.owner <;> cases hfs : venv.newFileSystem <;>
    cases hvf : venv.hookValidateFile <;> cases hvc : venv.hookValidateCapacity <;>
      simp [Monitor.ValidateFile, ho, hfs, hvf, hvc, Effect.isUnsubscribe]

/-- `UpdateTaskInfo` never emits a dispatcher unsubscription. -/
lemma updateTaskInfo_no_unsub (std : GoStd) (env : Env) (task : Download) (st : StatusInfo) :
    ((Monitor.UpdateTaskInfo std env task st).effects).all (fun x => !x.isUnsubscribe) = true := by
  unfold Monitor.UpdateTaskInfo
  dsimp only
  split
  · rfl
  · split
    · split
      · next veffs e heq =>
        have hv := validateFile_no_unsub std env.venv (Monitor.reconciledTask std st task)
        rw [heq] at hv
        simp only at hv
        simp only [List.all_cons, List.all_append, Bool.and_eq_true]
        exact ⟨⟨rfl, hv⟩, rfl⟩
      · next veffs heq =>
        have hv := validateFile_no_unsub std env.venv (Monitor.reconciledTask std st task)
        rw [heq] at hv
        simp only at hv
        simp only [List.all_cons, Bool.and_eq_true]
        exact ⟨rfl, hv⟩
    · rfl

/-- A single reconciliation pass never emits a dispatcher
unsubscription: release happens only at loop exit. -/
lemma update_no_unsub (std : GoStd) (env : Env) (task : Download) :
    ((Monitor.Update std env task).effects).all (fun x => !x.isUnsubscribe) = true := by
  unfold Monitor.Update
  split
  · rfl
  · next st heq0 =>
    split
    · rfl
    · dsimp only
      split
      · next e heq1 =>
        simp only [Monitor.setErrorStatus]
        rw [List.all_append]
        exact (Bool.and_eq_true _ _).mpr ⟨updateTaskInfo_no_unsub std env task st, rfl⟩
      · next heq1 =>
        split
        · dsimp only
          rw [List.all_append]
          exact (Bool.and_eq_true _ _).mpr
            ⟨updateTaskInfo_no_unsub std env task st,
             complete_no_unsub std env (Monitor.UpdateTaskInfo std env task st).task⟩
        · split
          · dsimp only
            rw [List.all_append]
            exact (Bool.and_eq_true _ _).mpr ⟨updateTaskInfo_no_unsub std env task st, rfl⟩
          · split
            · exact updateTaskInfo_no_unsub std env task st
            · split
              · exact updateTaskInfo_no_unsub std env task st
              · exact updateTaskInfo_no_unsub std env task st

/-- Along any loop run that ends with a terminal pass, the accumulated
pass effects contain no unsubscription. -/
lemma runLoop_no_unsub (std : GoStd) :
    ∀ (envs : List Env) (task t : Download) (effs : List Effect),
      Monitor.runLoop std envs task = some (t, effs) →
      effs.all (fun x => !x.isUnsubscribe) = true := by
  intro envs
  induction envs with
  | nil =>
    intro task t effs h
    simp [Monitor.runLoop] at h
  | cons env rest ih =>
    intro task t effs h
    unfold Monitor.runLoop at h
    dsimp only at h
    by_cases hs : (Monitor.Update std env task).stop
    · rw [if_pos hs] at h
      simp only [Option.some.injEq, Prod.mk.injEq] at h
      obtain ⟨ht, he⟩ := h
      subst he
      exact update_no_unsub std env task
    · rw [if_neg hs] at h
      cases hrec : Monitor.runLoop std rest (Monitor.Update std env task).task with
      | none => rw [hrec] at h; simp at h
      | some p =>
        obtain ⟨t2, effs2⟩ := p
        rw [hrec] at h
        simp only [Option.some.injEq, Prod.mk.injEq] at h
        obtain ⟨ht, he⟩ := h
        subst he
        rw [List.all_append]
        exact (Bool.and_eq_true _ _).mpr
          ⟨update_no_unsub std env task, ih _ _ _ hrec⟩

/-- C1: whenever a reconciliation pass returns the terminal decision and
the loop therefore ends, the only dispatcher unsubscription in the whole
run is the one deferred at loop entry, and it is keyed by the identifier
under which `NewMonitor` subscribed — even when redirect passes replaced
the tracked identifier in the meantime. -/
theorem C1_terminal_pass_releases_original_subscription
    (std : GoStd) (envs : List Env) (task t : Download) (effs : List Effect)
    (h : Monitor.Loop std envs task = some (t, effs)) :
    effs.filter (fun x => x.isUnsubscribe) = [Effect.unsubscribe (subscribeKey task)] := by
  unfold Monitor.Loop at h
  dsimp only at h
  cases hr : Monitor.runLoop std envs task with
  | none => rw [hr] at h; simp at h
  | some p =>
    obtain ⟨t0, e0⟩ := p
    rw [hr] at h
    simp only [Option.some.injEq, Prod.mk.injEq] at h
    obtain ⟨ht, he⟩ := h
    subst he
    rw [List.filter_append]
    have h0 := runLoop_no_unsub std envs task t0 e0 hr
    have hnil : e0.filter (fun x => x.isUnsubscribe) = [] := by
      rw [List.filter_eq_nil_iff]
      intro a ha
      have := List.all_eq_true.mp h0 a ha
      simpa using this
    rw [hnil]
    simp [subscribeKey, Effect.isUnsubscribe]

/-- The record after the witness run below: redirected to `g2`, then
terminated by a failing query. -/
def loopFinalTask : Download :=
  { task0 with gid := "g2", status := DownloadStatus.error, error := "boom" }

/-- The effect trace of the witness run below. -/
def loopEffects : List Effect :=
  [Effect.save, Effect.save, Effect.removeTempFolder "/tmp/d", Effect.unsubscribe "g1"]

theorem C1_terminal_release_witness :
    Monitor.Loop testStd [envRedirect, envBoom] task0 = some (loopFinalTask, loopEffects) ∧
    loopEffects.filter (fun x => x.isUnsubscribe) =
      [Effect.unsubscribe (subscribeKey task0)] ∧
    loopFinalTask.gid ≠ task0.gid :=
  ⟨rfl,
    C1_terminal_pass_releases_original_subscription testStd [envRedirect, envBoom]
      task0 loopFinalTask loopEffects rfl,
    by decide⟩

/-- Environment identical to the baseline except that the persist inside
`UpdateTaskInfo` fails. -/
def envSaveFail : Env := { env0 with saveFails := true }

/-- C2, counterexample: with the engine reporting a new total size
(`st0` reports 1000 against the previously persisted 0) and the persist
call failing, reconciliation reports success and emits only the save —
no owner lookup, no file-constraint check, no capacity check — so the
claim that validation is invoked "including when the persist call itself
fails" is false on the code (Monitor.go:145-147 returns early). -/
theorem C2_persist_failure_skips_validation_counterexample :
    (Monitor.UpdateTaskInfo testStd envSaveFail task0 st0).effects = [Effect.save] ∧
    (Monitor.UpdateTaskInfo testStd envSaveFail task0 st0).err = none ∧
    task0.totalSize ≠ (Monitor.UpdateTaskInfo testStd envSaveFail task0 st0).task.totalSize ∧
    ((Monitor.UpdateTaskInfo testStd envSaveFail task0 st0).effects).all
      (fun x => !x.isValidation) = true :=
  ⟨rfl, rfl, by decide, rfl⟩

/-- C2, amended: when the total size or primary path changed relative to
the previously persisted values, `UpdateTaskInfo` invokes validation
after persisting the record only if the persist call succeeds — its
error and the effects following the save are exactly those of
`ValidateFile` (plus the `Cancel` effects on a validation failure);
when the persist call fails, the error is swallowed, reconciliation is
treated as successful, and validation is skipped entirely. -/
theorem C2_validation_after_successful_persist_only
    (std : GoStd) (env : Env) (task : Download) (st : StatusInfo)
    (hchange : (task.totalSize != (Monitor.reconciledTask std st task).totalSize
        || task.path != (Monitor.reconciledTask std st task).path) = true) :
    if env.saveFails then
      Monitor.UpdateTaskInfo std env task st =
        { task := Monitor.reconciledTask std st task
          effects := [Effect.save], err := none }
    else
      (Monitor.UpdateTaskInfo std env task st).err =
        (Monitor.ValidateFile std env.venv (Monitor.reconciledTask std st task)).2 ∧
      (Monitor.UpdateTaskInfo std env task st).effects =
        Effect.save :: (Monitor.ValidateFile std env.venv (Monitor.reconciledTask std st task)).1
          ++ (match (Monitor.ValidateFile std env.venv (Monitor.reconciledTask std st task)).2 with
              | some _ => Monitor.Cancel env.cancelFails (Monitor.reconciledTask std st task)
              | none => []) := by
  cases hs : env.saveFails with
  | true => simp [Monitor.UpdateTaskInfo, hs]
  | false =>
    simp only [Bool.false_eq_true, if_false]
    cases hv : Monitor.ValidateFile std env.venv (Monitor.reconciledTask std st task) with
    | mk veffs res =>
      cases res with
      | some e => simp [Monitor.UpdateTaskInfo, hs, hchange, hv]
      | none => simp [Monitor.UpdateTaskInfo, hs, hchange, hv]

theorem C2_validation_after_persist_witness :
    (task0.totalSize != (Monitor.reconciledTask testStd st0 task0).totalSize
      || task0.path != (Monitor.reconciledTask testStd st0 task0).path) = true ∧
    (if env0.saveFails then
      Monitor.UpdateTaskInfo testStd env0 task0 st0 =
        { task := Monitor.reconciledTask testStd st0 task0
          effects := [Effect.save], err := none }
    else
      (Monitor.UpdateTaskInfo testStd env0 task0 st0).err =
        (Monitor.ValidateFile testStd env0.venv (Monitor.reconciledTask testStd st0 task0)).2 ∧
      (Monitor.UpdateTaskInfo testStd env0 task0 st0).effects =
        Effect.save ::
          (Monitor.ValidateFile testStd env0.venv (Monitor.reconciledTask testStd st0 task0)).1
          ++ (match
                (Monitor.ValidateFile testStd env0.venv
                  (Monitor.reconciledTask testStd st0 task0)).2 with
              | some _ =>
                Monitor.Cancel env0.cancelFails (Monitor.reconciledTask testStd st0 task0)
              | none => [])) :=
  ⟨rfl, C2_validation_after_successful_persist_only testStd env0 task0 st0 rfl⟩

/-- The effects emitted by `ValidateFile` never include an immediate
recursive temp-directory removal. -/
lemma validateFile_no_removeTempFolder (std : GoStd) (venv : ValidationEnv) (t : Download) :
    ((Monitor.ValidateFile std venv t).1).all (fun x => !x.isRemoveTempFolder) = true := by
  cases ho : venv.owner <;> cases hfs : venv.newFileSystem <;>
    cases hvf : venv.hookValidateFile <;> cases hvc : venv.hookValidateCapacity <;>
      simp [Monitor.ValidateFile, ho, hfs, hvf, hvc, Effect.isRemoveTempFolder]

/-- C3: when validation fails during a reconciliation pass, the pass
aborts the engine task and schedules the deferred full removal of the
temp directory (the `Cancel` effects, emitted whatever the abort
request's outcome, since the pass is stated for any `env.cancelFails`),
records the Error status with the validation failure message and
persists it, performs no immediate temp-directory removal anywhere in
the pass, and returns the terminal decision. -/
theorem C3_validation_failure_cancels_records_error_and_stops
    (std : GoStd) (env : Env) (task : Download) (st : StatusInfo)
    (veffs : List Effect) (e : String)
    (hq : env.statusResult = .ok st)
    (hf : st.followedBy = [])
    (hs : env.saveFails = false)
    (hchange : (task.totalSize != (Monitor.reconciledTask std st task).totalSize
        || task.path != (Monitor.reconciledTask std st task).path) = true)
    (hval : Monitor.ValidateFile std env.venv (Monitor.reconciledTask std st task) =
      (veffs, some e)) :
    Monitor.Update std env task =
      { task := { Monitor.reconciledTask std st task with
                  status := DownloadStatus.error, error := e }
        effects := (Effect.save :: veffs ++
          [Effect.cancelEngine (Monitor.reconciledTask std st task).gid,
           Effect.deferRemoveTempFolder (Monitor.reconciledTask std st task).parent]) ++
          [Effect.save]
        stop := true } ∧
    Effect.deferRemoveTempFolder (Monitor.reconciledTask std st task).parent ∈
      (Monitor.Update std env task).effects ∧
    ((Monitor.Update std env task).effects).all (fun x => !x.isRemoveTempFolder) = true := by
  have h1 : Monitor.Update std env task =
      { task := { Monitor.reconciledTask std st task with
                  status := DownloadStatus.error, error := e }
        effects := (Effect.save :: veffs ++
          [Effect.cancelEngine (Monitor.reconciledTask std st task).gid,
           Effect.deferRemoveTempFolder (Monitor.reconciledTask std st task).parent]) ++
          [Effect.save]
        stop := true } := by
    simp [Monitor.Update, hq, hf, Monitor.UpdateTaskInfo, hs, hchange, hval,
      Monitor.Cancel, Monitor.setErrorStatus]
  have hv := validateFile_no_removeTempFolder std env.venv (Monitor.reconciledTask std st task)
  rw [hval] at hv
  simp only at hv
  refine ⟨h1, ?_, ?_⟩
  · rw [h1]
    simp
  · rw [h1]
    simp only [List.all_append, List.all_cons, Bool.and_eq_true]
    exact ⟨⟨⟨rfl, hv⟩, rfl, rfl, rfl⟩, rfl, rfl⟩

/-- Validation oracles where the file-constraint hook rejects the file. -/
def venvTooBig : ValidationEnv := { venvOK with hookValidateFile := .error "file too large" }

/-- Environment whose validation fails and whose engine abort request
also fails, exercising the "regardless of the abort outcome" part. -/
def envValFail : Env := { env0 with venv := venvTooBig, cancelFails := true }

theorem C3_validation_failure_witness :
    Monitor.Update testStd envValFail task0 =
      { task := { Monitor.reconciledTask testStd st0 task0 with
                  status := DownloadStatus.error, error := "file too large" }
        effects := (Effect.save :: [Effect.getOwner, Effect.newFileSystem,
            Effect.validateFileCheck 1000 "/tmp/d/f"] ++
          [Effect.cancelEngine (Monitor.reconciledTask testStd st0 task0).gid,
           Effect.deferRemoveTempFolder (Monitor.reconciledTask testStd st0 task0).parent]) ++
          [Effect.save]
        stop := true } ∧
    Effect.deferRemoveTempFolder (Monitor.reconciledTask testStd st0 task0).parent ∈
      (Monitor.Update testStd envValFail task0).effects ∧
    ((Monitor.Update testStd envValFail task0).effects).all
      (fun x => !x.isRemoveTempFolder) = true :=
  C3_validation_failure_cancels_records_error_and_stops testStd envValFail task0 st0
    [Effect.getOwner, Effect.newFileSystem, Effect.validateFileCheck 1000 "/tmp/d/f"]
    "file too large" rfl rfl rfl rfl rfl

/-- C5: for every engine response whose total length, completed length
or download speed is not parsable, the corresponding task field is set
to zero, and the pass never reports an error for it — the only error
`UpdateTaskInfo` can return is a validation result. -/
theorem C5_malformed_numerics_default_to_zero
    (std : GoStd) (env : Env) (task : Download) (st : StatusInfo) :
    (strconvParseUint st.totalLength = none →
      (Monitor.UpdateTaskInfo std env task st).task.totalSize = 0) ∧
    (strconvParseUint st.completedLength = none →
      (Monitor.UpdateTaskInfo std env task st).task.downloadedSize = 0) ∧
    (strconvAtoi st.downloadSpeed = none →
      (Monitor.UpdateTaskInfo std env task st).task.speed = 0) ∧
    ((Monitor.UpdateTaskInfo std env task st).err = none ∨
     (Monitor.UpdateTaskInfo std env task st).err =
       (Monitor.ValidateFile std env.venv (Monitor.reconciledTask std st task)).2) := by
  refine ⟨?_, ?_, ?_, ?_⟩
  · intro h1
    rw [updateTaskInfo_task]
    simp [Monitor.reconciledTask, h1]
  · intro h2
    rw [updateTaskInfo_task]
    simp [Monitor.reconciledTask, h2]
  · intro h3
    rw [updateTaskInfo_task]
    simp [Monitor.reconciledTask, h3]
  · unfold Monitor.UpdateTaskInfo
    dsimp only
    split
    · exact Or.inl rfl
    · split
      · split
        · next veffs e heq =>
          refine Or.inr ?_
          rw [heq]
        · exact Or.inl rfl
      · exact Or.inl rfl

/-- Engine response whose three numeric fields are all malformed. -/
def stBadNums : StatusInfo :=
  { st0 with totalLength := "12x3", completedLength := "", downloadSpeed := "fast" }

theorem C5_malformed_numerics_witness :
    strconvParseUint stBadNums.totalLength = none ∧
    strconvParseUint stBadNums.completedLength = none ∧
    strconvAtoi stBadNums.downloadSpeed = none ∧
    (Monitor.UpdateTaskInfo testStd env0 task0 stBadNums).task.totalSize = 0 ∧
    (Monitor.UpdateTaskInfo testStd env0 task0 stBadNums).task.downloadedSize = 0 ∧
    (Monitor.UpdateTaskInfo testStd env0 task0 stBadNums).task.speed = 0 :=
  ⟨rfl, rfl, rfl,
    (C5_malformed_numerics_default_to_zero testStd env0 task0 stBadNums).1 rfl,
    (C5_malformed_numerics_default_to_zero testStd env0 task0 stBadNums).2.1 rfl,
    (C5_malformed_numerics_default_to_zero testStd env0 task0 stBadNums).2.2.1 rfl⟩

/-- Classifier: is this effect the scheduling of a deferred
temp-directory removal? -/
def Effect.isDeferRemove : Effect → Bool
  | .deferRemoveTempFolder _ => true
  | _ => false

/-- The effects emitted by `ValidateFile` never include any cleanup —
neither an immediate nor a deferred temp-directory removal. -/
lemma validateFile_no_cleanup (std : GoStd) (venv : ValidationEnv) (t : Download) :
    ((Monitor.ValidateFile std venv t).1).all
      (fun x => !x.isRemoveTempFolder && !x.isDeferRemove) = true := by
  cases ho : venv.owner <;> cases hfs : venv.newFileSystem <;>
    cases hvf : venv.hookValidateFile <;> cases hvc : venv.hookValidateCapacity <;>
      simp [Monitor.ValidateFile, ho, hfs, hvf, hvc,
        Effect.isRemoveTempFolder, Effect.isDeferRemove]

/-- `Complete` performs no cleanup in either of its branches. -/
lemma complete_no_cleanup (std : GoStd) (env : Env) (t : Download) :
    ((Monitor.Complete std env t).effects).all
      (fun x => !x.isRemoveTempFolder && !x.isDeferRemove) = true := by
  cases hj : env.newTransferJob <;>
    simp [Monitor.Complete, hj, Monitor.setErrorStatus,
      Effect.isRemoveTempFolder, Effect.isDeferRemove]

/-- When `UpdateTaskInfo` reports no error, its effects contain no
cleanup (the only cleanup it can emit is the deferred one scheduled by
`Cancel` on a validation failure, which forces an error result). -/
lemma updateTaskInfo_no_cleanup_of_ok (std : GoStd) (env : Env) (task : Download)
    (st : StatusInfo) (h : (Monitor.UpdateTaskInfo std env task st).err = none) :
    ((Monitor.UpdateTaskInfo std env task st).effects).all
      (fun x => !x.isRemoveTempFolder && !x.isDeferRemove) = true := by
  cases hsf : env.saveFails with
  | true => simp [Monitor.UpdateTaskInfo, hsf, Effect.isRemoveTempFolder, Effect.isDeferRemove]
  | false =>
    cases hch : (task.totalSize != (Monitor.reconciledTask std st task).totalSize
        || task.path != (Monitor.reconciledTask std st task).path) with
    | false =>
      simp [Monitor.UpdateTaskInfo, hsf, hch, Effect.isRemoveTempFolder, Effect.isDeferRemove]
    | true =>
      cases hv : Monitor.ValidateFile std env.venv (Monitor.reconciledTask std st task) with
      | mk veffs res =>
        cases res with
        | some e => simp [Monitor.UpdateTaskInfo, hsf, hch, hv] at h
        | none =>
          have hv2 := validateFile_no_cleanup std env.venv (Monitor.reconciledTask std st task)
          rw [hv] at hv2
          simp only at hv2
          simp only [Monitor.UpdateTaskInfo, hsf, hch, Bool.false_eq_true, if_false, if_true, hv]
          simp only [List.all_cons, Bool.and_eq_true]
          exact ⟨⟨rfl, rfl⟩, hv2⟩

/-- C7: on an engine-reported `complete` status, the pass builds a
transfer job whose destination is `dst` joined with the base name of the
current path, whose source file is the current path and whose source
directory is the current parent; on successful construction it submits
the job, links the job identifier into the record, persists and stops;
on failed construction it records the Error status instead, persists and
stops.  In both branches the pass performs no cleanup at all. -/
theorem C7_complete_constructs_and_submits_transfer_job
    (std : GoStd) (env : Env) (task : Download) (st : StatusInfo)
    (hq : env.statusResult = .ok st)
    (hf : st.followedBy = [])
    (hst : st.status = "complete")
    (herr : (Monitor.UpdateTaskInfo std env task st).err = none) :
    Monitor.Update std env task =
      (match env.newTransferJob with
       | .ok jid =>
         { task := { (Monitor.UpdateTaskInfo std env task st).task with taskID := jid }
           effects := (Monitor.UpdateTaskInfo std env task st).effects ++
             [Effect.newTransferJob (Monitor.UpdateTaskInfo std env task st).task.userID
                (std.pathJoin (Monitor.UpdateTaskInfo std env task st).task.dst
                  (std.filepathBase (Monitor.UpdateTaskInfo std env task st).task.path))
                (Monitor.UpdateTaskInfo std env task st).task.path
                (Monitor.UpdateTaskInfo std env task st).task.parent,
              Effect.submitJob (Monitor.UpdateTaskInfo std env task st).task.userID
                (std.pathJoin (Monitor.UpdateTaskInfo std env task st).task.dst
                  (std.filepathBase (Monitor.UpdateTaskInfo std env task st).task.path))
                (Monitor.UpdateTaskInfo std env task st).task.path
                (Monitor.UpdateTaskInfo std env task st).task.parent,
              Effect.save]
           stop := true }
       | .error e =>
         { task := { (Monitor.UpdateTaskInfo std env task st).task with
                     status := DownloadStatus.error, error := e }
           effects := (Monitor.UpdateTaskInfo std env task st).effects ++
             [Effect.newTransferJob (Monitor.UpdateTaskInfo std env task st).task.userID
                (std.pathJoin (Monitor.UpdateTaskInfo std env task st).task.dst
                  (std.filepathBase (Monitor.UpdateTaskInfo std env task st).task.path))
                (Monitor.UpdateTaskInfo std env task st).task.path
                (Monitor.UpdateTaskInfo std env task st).task.parent,
              Effect.save]
           stop := true }) ∧
    ((Monitor.Update std env task).effects).all
      (fun x => !x.isRemoveTempFolder && !x.isDeferRemove) = true := by
  have h2 : (Monitor.Update std env task).effects =
      (Monitor.UpdateTaskInfo std env task st).effects ++
        (Monitor.Complete std env (Monitor.UpdateTaskInfo std env task st).task).effects := by
    simp [Monitor.Update, hq, hf, hst, herr]
  refine ⟨?_, ?_⟩
  · cases hj : env.newTransferJob with
    | ok jid =>
      simp [Monitor.Update, hq, hf, hst, herr, Monitor.Complete, hj]
    | error e =>
      simp [Monitor.Update, hq, hf, hst, herr, Monitor.Complete, hj, Monitor.setErrorStatus]
  · rw [h2, List.all_append]
    exact (Bool.and_eq_true _ _).mpr
      ⟨updateTaskInfo_no_cleanup_of_ok std env task st herr,
       complete_no_cleanup std env (Monitor.UpdateTaskInfo std env task st).task⟩

/-- Engine response reporting completion. -/
def stComplete : StatusInfo := { st0 with status := "complete" }

/-- Environment whose query reports completion; job construction yields
job 42. -/
def envComplete : Env := { env0 with statusResult := .ok stComplete }

theorem C7_complete_witness :
    Monitor.Update testStd envComplete task0 =
      (match envComplete.newTransferJob with
       | .ok jid =>
         { task := { (Monitor.UpdateTaskInfo testStd envComplete task0 stComplete).task with
                     taskID := jid }
           effects := (Monitor.UpdateTaskInfo testStd envComplete task0 stComplete).effects ++
             [Effect.newTransferJob
                (Monitor.UpdateTaskInfo testStd envComplete task0 stComplete).task.userID
                (testStd.pathJoin
                  (Monitor.UpdateTaskInfo testStd envComplete task0 stComplete).task.dst
                  (testStd.filepathBase
                    (Monitor.UpdateTaskInfo testStd envComplete task0 stComplete).task.path))
                (Monitor.UpdateTaskInfo testStd envComplete task0 stComplete).task.path
                (Monitor.UpdateTaskInfo testStd envComplete task0 stComplete).task.parent,
              Effect.submitJob
                (Monitor.UpdateTaskInfo testStd envComplete task0 stComplete).task.userID
                (testStd.pathJoin
                  (Monitor.UpdateTaskInfo testStd envComplete task0 stComplete).task.dst
                  (testStd.filepathBase
                    (Monitor.UpdateTaskInfo testStd envComplete task0 stComplete).task.path))
                (Monitor.UpdateTaskInfo testStd envComplete task0 stComplete).task.path
                (Monitor.UpdateTaskInfo testStd envComplete task0 stComplete).task.parent,
              Effect.save]
           stop := true }
       | .error e =>
         { task := { (Monitor.UpdateTaskInfo testStd envComplete task0 stComplete).task with
                     status := DownloadStatus.error, error := e }
           effects := (Monitor.UpdateTaskInfo testStd envComplete task0 stComplete).effects ++
             [Effect.newTransferJob
                (Monitor.UpdateTaskInfo testStd envComplete task0 stComplete).task.userID
                (testStd.pathJoin
                  (Monitor.UpdateTaskInfo testStd envComplete task0 stComplete).task.dst
                  (testStd.filepathBase
                    (Monitor.UpdateTaskInfo testStd envComplete task0 stComplete).task.path))
                (Monitor.UpdateTaskInfo testStd envComplete task0 stComplete).task.path
                (Monitor.UpdateTaskInfo testStd envComplete task0 stComplete).task.parent,
              Effect.save]
           stop := true }) ∧
    ((Monitor.Update testStd envComplete task0).effects).all
      (fun x => !x.isRemoveTempFolder && !x.isDeferRemove) = true :=
  C7_complete_constructs_and_submits_transfer_job testStd envComplete task0 stComplete
    rfl rfl rfl rfl

/-- C8: on an engine-reported `error` status, the pass records the
engine's error message under the Error status and persists it, performs
the full recursive removal of the temp-storage directory (whose path is
the engine-reported directory persisted by the reconciliation step), and
returns the terminal decision.  The removal leaves nothing inside (or
equal to) the temp directory. -/
theorem C8_engine_error_records_message_and_removes_folder
    (std : GoStd) (env : Env) (task : Download) (st : StatusInfo)
    (under : String → String → Bool) (fs : FS)
    (hq : env.statusResult = .ok st)
    (hf : st.followedBy = [])
    (hst : st.status = "error")
    (herr : (Monitor.UpdateTaskInfo std env task st).err = none) :
    Monitor.Update std env task =
      { task := { (Monitor.UpdateTaskInfo std env task st).task with
                  status := DownloadStatus.error, error := st.errorMessage }
        effects := (Monitor.UpdateTaskInfo std env task st).effects ++
          [Effect.save,
           Effect.removeTempFolder (Monitor.UpdateTaskInfo std env task st).task.parent]
        stop := true } ∧
    (Monitor.UpdateTaskInfo std env task st).task.parent = st.dir ∧
    ((Monitor.RemoveTempFolder under (Monitor.UpdateTaskInfo std env task st).task fs).files).all
      (fun f => !under (Monitor.UpdateTaskInfo std env task st).task.parent f) = true ∧
    ((Monitor.RemoveTempFolder under (Monitor.UpdateTaskInfo std env task st).task fs).dirs).all
      (fun x => !(x == (Monitor.UpdateTaskInfo std env task st).task.parent) &&
        !under (Monitor.UpdateTaskInfo std env task st).task.parent x) = true := by
  refine ⟨?_, ?_, ?_, ?_⟩
  · simp [Monitor.Update, hq, hf, hst, herr, Monitor.Error, Monitor.setErrorStatus]
  · rw [updateTaskInfo_task]
    rfl
  · exact fsRemoveAll_files under fs (Monitor.UpdateTaskInfo std env task st).task.parent
  · exact fsRemoveAll_dirs under fs (Monitor.UpdateTaskInfo std env task st).task.parent

/-- Engine response reporting an engine-side failure. -/
def stEngineErr : StatusInfo := { st0 with status := "error", errorMessage := "disk full" }

/-- Environment whose query reports the engine-side failure. -/
def envEngineErr : Env := { env0 with statusResult := .ok stEngineErr }

theorem C8_engine_error_witness :
    Monitor.Update testStd envEngineErr task0 =
      { task := { (Monitor.UpdateTaskInfo testStd envEngineErr task0 stEngineErr).task with
                  status := DownloadStatus.error, error := stEngineErr.errorMessage }
        effects := (Monitor.UpdateTaskInfo testStd envEngineErr task0 stEngineErr).effects ++
          [Effect.save,
           Effect.removeTempFolder
             (Monitor.UpdateTaskInfo testStd envEngineErr task0 stEngineErr).task.parent]
        stop := true } ∧
    (Monitor.UpdateTaskInfo testStd envEngineErr task0 stEngineErr).task.parent =
      stEngineErr.dir ∧
    ((Monitor.RemoveTempFolder underTest
        (Monitor.UpdateTaskInfo testStd envEngineErr task0 stEngineErr).task fs0).files).all
      (fun f =>
        !underTest (Monitor.UpdateTaskInfo testStd envEngineErr task0 stEngineErr).task.parent
          f) = true ∧
    ((Monitor.RemoveTempFolder underTest
        (Monitor.UpdateTaskInfo testStd envEngineErr task0 stEngineErr).task fs0).dirs).all
      (fun x =>
        !(x == (Monitor.UpdateTaskInfo testStd envEngineErr task0 stEngineErr).task.parent) &&
        !underTest (Monitor.UpdateTaskInfo testStd envEngineErr task0 stEngineErr).task.parent
          x) = true :=
  C8_engine_error_records_message_and_removes_folder testStd envEngineErr task0 stEngineErr
    underTest fs0 rfl rfl rfl rfl

/-- C9: the targeted removal deletes exactly the primary tracked file —
the surviving files are precisely the original ones other than the
task's current path, and no other file or directory is touched — and it
removes the parent directory if and only if, after the file's removal,
that directory is empty. -/
theorem C9_targeted_removal_deletes_exactly_primary_file
    (inDir : String → String → Bool) (task : Download) (fs : FS) :
    (Monitor.RemoveTempFile inDir task fs).files =
      fs.files.filter (fun f => f != task.path) ∧
    (∀ f, f ∈ (Monitor.RemoveTempFile inDir task fs).files ↔
      (f ∈ fs.files ∧ f ≠ task.path)) ∧
    (Monitor.RemoveTempFile inDir task fs).dirs =
      (if isEmptyDir inDir (fsRemoveFile fs task.path) task.parent
       then fs.dirs.filter (fun x => x != task.parent)
       else fs.dirs) ∧
    (∀ d, d ∈ fs.dirs → d ≠ task.parent →
      d ∈ (Monitor.RemoveTempFile inDir task fs).dirs) ∧
    (∀ d, d ∈ (Monitor.RemoveTempFile inDir task fs).dirs → d ∈ fs.dirs) := by
  unfold Monitor.RemoveTempFile
  dsimp only
  by_cases hb : isEmptyDir inDir (fsRemoveFile fs task.path) task.parent
  · rw [if_pos hb]
    refine ⟨?_, ?_, ?_, ?_, ?_⟩
    · simp [fsRemoveDir, fsRemoveFile]
    · intro f
      simp [fsRemoveDir, fsRemoveFile, List.mem_filter, bne_iff_ne]
    · rw [if_pos hb]
      simp [fsRemoveDir, fsRemoveFile]
    · intro d hd hne
      simp [fsRemoveDir, fsRemoveFile, List.mem_filter, bne_iff_ne, hd, hne]
    · intro d hd
      simp only [fsRemoveDir, fsRemoveFile] at hd
      exact List.mem_of_mem_filter hd
  · rw [if_neg hb]
    refine ⟨?_, ?_, ?_, ?_, ?_⟩
    · simp [fsRemoveFile]
    · intro f
      simp [fsRemoveFile, List.mem_filter, bne_iff_ne]
    · rw [if_neg hb]
      simp [fsRemoveFile]
    · intro d hd hne
      simpa [fsRemoveFile] using hd
    · intro d hd
      simpa [fsRemoveFile] using hd
